import Mathlib

/-!
Verification of the agent-connection secret-management core of this
repository against its specification.

The embedding below translates, at the level of pure functions over
`String` / `List Char` and an explicit vault state, the code of
`backend/open_webui/utils/vault.py` (name sanitizers, path construction,
field-level store/get/delete over per-scope documents) and of
`backend/open_webui/routers/agent_connections.py` (the create / list /
get / update / delete HTTP handlers).  The external Vault backend is
modelled as an association list from path to document together with a
trace of the backend operations performed, so that statements of the
form "the handler answers before any backend access" are expressible.
Machine-clock timestamps (`created_at`, synthesized with `datetime.now()`
on every response) are outside the embedding and omitted from the
response records; no claim refers to them.
-/

/-- ASCII alphanumeric test, the character class `[A-Za-z0-9]` used by the
regular expression in `sanitize_agent_name` (vault.py line 55).  Python's
`str.isalnum` (used by the routers' key-name validation) coincides with
this class on ASCII characters but additionally accepts non-ASCII Unicode
alphanumerics; statements about the key-name gate are therefore made only
for ASCII characters, where this model and Python agree. -/
def isAlnumChar (c : Char) : Bool :=
  (('A' ≤ c && c ≤ 'Z') || ('a' ≤ c && c ≤ 'z')) || ('0' ≤ c && c ≤ '9')

/-- Core of Python's `str.split(sep, maxsplit)` for a one-character
separator: `acc` is the (reversed) chunk being accumulated, the first
argument is the remaining split budget.  Once the budget is exhausted the
rest of the input, separators included, forms the final chunk. -/
def pySplitAux (sep : Char) : Nat → List Char → List Char → List (List Char)
  | _, acc, [] => [acc.reverse]
  | Nat.succ m, acc, c :: cs =>
    if c = sep then acc.reverse :: pySplitAux sep m [] cs
    else pySplitAux sep (Nat.succ m) (c :: acc) cs
  | 0, acc, c :: cs => pySplitAux sep 0 (c :: acc) cs

/-- Python `s.split(sep, maxsplit)` on the character list of `s`. -/
def pySplit (sep : Char) (maxsplit : Nat) (l : List Char) : List (List Char) :=
  pySplitAux sep maxsplit [] l

/-- Number of occurrences of a character in a list. -/
def countChar (c : Char) : List Char → Nat
  | [] => 0
  | d :: ds => (if d = c then 1 else 0) + countChar c ds

/-- `re.sub(r"[^A-Za-z0-9]+", "_", ·)` from `sanitize_agent_name`
(vault.py line 55): the flag records whether the previous character was
part of a non-alphanumeric run that has already emitted its underscore. -/
def subNonAlnumAux : Bool → List Char → List Char
  | _, [] => []
  | prevRepl, c :: cs =>
    if isAlnumChar c then c :: subNonAlnumAux false cs
    else if prevRepl then subNonAlnumAux true cs
    else '_' :: subNonAlnumAux true cs

/-- Replace every maximal run of non-alphanumeric characters by one
underscore. -/
def subNonAlnum (l : List Char) : List Char :=
  subNonAlnumAux false l

/-- Remove leading copies of a character. -/
def dropLeading (c : Char) : List Char → List Char
  | [] => []
  | d :: ds => if d = c then dropLeading c ds else d :: ds

/-- Python `str.strip(c)`: remove leading and trailing copies of `c`. -/
def pyStrip (c : Char) (l : List Char) : List Char :=
  (dropLeading c (dropLeading c l).reverse).reverse

/-- The chunk of `l` before the first occurrence of `sep` (all of `l` when
`sep` is absent); the spec's "substring before the first colon". -/
def takeUntilChar (sep : Char) : List Char → List Char
  | [] => []
  | c :: cs => if c = sep then [] else c :: takeUntilChar sep cs

/-- Drop characters while they are non-alphanumeric. -/
def dropNonAlnum : List Char → List Char
  | [] => []
  | c :: cs => if isAlnumChar c then c :: cs else dropNonAlnum cs

theorem dropNonAlnum_length_le : ∀ l : List Char, (dropNonAlnum l).length ≤ l.length := by
  intro l
  induction l with
  | nil => simp [dropNonAlnum]
  | cons c cs ih =>
    by_cases h : isAlnumChar c
    · simp [dropNonAlnum, h]
    · simp only [dropNonAlnum, h, if_false, Bool.false_eq_true, List.length_cons]
      exact Nat.le_succ_of_le ih

/-- Spec-side rendering of "replace every maximal run of non-alphanumeric
characters with a single underscore", structured as direct recursion over
runs; compared against the source's `subNonAlnum` below. -/
def replaceRuns : List Char → List Char
  | [] => []
  | c :: cs =>
    if isAlnumChar c then c :: replaceRuns cs
    else '_' :: replaceRuns (dropNonAlnum cs)
termination_by l => l.length
decreasing_by
  · simp only [List.length_cons]; omega
  · simp only [List.length_cons]
    exact Nat.lt_succ_of_le (dropNonAlnum_length_le _)

/-- `sanitize_agent_name` (vault.py lines 27-56): normalize an agent/model
identifier to an underscore-safe name.  `none` models Python `None`. -/
def sanitize_agent_name (agent_identifier : Option String) : String :=
  match agent_identifier with
  | none => "default"
  | some s =>
    if s.isEmpty then "default"
    else
      let ident :=
        if ':' ∈ s.toList then (pySplit ':' 1 s.toList).headI else s.toList
      let normalized := pyStrip '_' (subNonAlnum ident)
      if normalized.isEmpty then "default" else normalized.asString

/-- `sanitize_key_field` (vault.py lines 59-67): replace forward and
backward slashes in a field name by underscores, leave the rest alone. -/
def sanitize_key_field (key : String) : String :=
  (key.toList.map (fun c => if c = '/' ∨ c = '\\' then '_' else c)).asString

/-- Python truthiness of an optional string: `None` and `""` are falsy. -/
def pyTruthy : Option String → Bool
  | none => false
  | some s => !s.isEmpty

/-- `format_secret_key` (vault.py lines 278-299): the base Vault path
`users/<user_id>/<agent_name>`; the field name plays no role in the
path. -/
def format_secret_key (user_id : String) (agent_id : Option String) (is_common : Bool) : String :=
  let agent_name :=
    if is_common then "common"
    else if pyTruthy agent_id then sanitize_agent_name agent_id
    else "default"
  "users/" ++ user_id ++ "/" ++ agent_name

/-- A scope document: the flat field-to-value mapping stored at one Vault
path (a Python dict, modelled as an association list). -/
def Doc := List (String × String)
deriving DecidableEq

/-- Association-list lookup. -/
def alistGet {α : Type} : List (String × α) → String → Option α
  | [], _ => none
  | (k, v) :: rest, key => if k = key then some v else alistGet rest key

/-- Association-list insert-or-overwrite (dict assignment: overwrite the
existing entry in place, append a fresh key at the end). -/
def alistSet {α : Type} : List (String × α) → String → α → List (String × α)
  | [], key, val => [(key, val)]
  | (k, v) :: rest, key, val =>
    if k = key then (k, val) :: rest else (k, v) :: alistSet rest key val

/-- Association-list removal of a key (dict `pop` / KV delete). -/
def alistRemove {α : Type} (l : List (String × α)) (key : String) : List (String × α) :=
  l.filter (fun p => !(p.1 = key))

/-- Whether a document has a field (`field in doc`). -/
def docHas (d : Doc) (key : String) : Bool :=
  (alistGet d key).isSome

/-- One backend (Vault HTTP) operation, recorded in the trace. -/
inductive BOp where
  | read (path : String)
  | write (path : String) (doc : Doc)
  | remove (path : String)
  | listKeys (path : String)
deriving DecidableEq

/-- The modelled backend: the KV store contents plus the trace of backend
operations issued so far. -/
structure VaultSt where
  store : List (String × Doc)
  trace : List BOp
deriving DecidableEq

/-- `VaultClient.get_secret` on a reachable backend: `None` for an absent
path, the stored mapping otherwise. -/
def getSecret (st : VaultSt) (path : String) : Option Doc × VaultSt :=
  (alistGet st.store path, { st with trace := st.trace ++ [BOp.read path] })

/-- `VaultClient.set_secret` on a reachable backend. -/
def setSecret (st : VaultSt) (path : String) (d : Doc) : Bool × VaultSt :=
  (true, { store := alistSet st.store path d, trace := st.trace ++ [BOp.write path d] })

/-- `VaultClient.delete_secret` on a reachable backend. -/
def deleteSecret (st : VaultSt) (path : String) : Bool × VaultSt :=
  (true, { store := alistRemove st.store path, trace := st.trace ++ [BOp.remove path] })

/-- Prefix test on character lists (`str.startswith`). -/
def listStartsWith : List Char → List Char → Bool
  | [], _ => true
  | _ :: _, [] => false
  | c :: cs, d :: ds => c = d && listStartsWith cs ds

/-- `list_secrets` (KV v1 list) on a reachable backend: the child names
under `path/`, or `none` when there are no children (the raised
`InvalidPath` that callers catch). -/
def listSecrets (st : VaultSt) (path : String) : Option (List String) × VaultSt :=
  let pre := (path ++ "/").toList
  let ks := ((st.store.map Prod.fst).filter (fun k => listStartsWith pre k.toList)).map
    (fun k => (k.toList.drop pre.length).asString)
  ((if ks.isEmpty then none else some ks),
   { st with trace := st.trace ++ [BOp.listKeys path] })

/-- `store_agent_connection_in_vault` (vault.py lines 302-341): read the
existing document at `users/<user_id>/<agent_name>` (absence treated as
the empty mapping), set the sanitized field, write the merged mapping
back.  `enabled` is `ENABLE_VAULT_INTEGRATION`; the client is modelled as
available and connected. -/
def store_agent_connection_in_vault (name value agent_id : Option String)
    (is_common : Bool) (user_id : String) (enabled : Bool) (st : VaultSt) :
    Bool × VaultSt :=
  if !enabled then (false, st)
  else if !(pyTruthy name) ∨ value = none then (false, st)
  else
    let path := format_secret_key user_id agent_id is_common
    let r1 := getSecret st path
    let existing := r1.1.getD []
    let sanitized := sanitize_key_field (name.getD "")
    let newDoc := alistSet existing sanitized (value.getD "")
    setSecret r1.2 path newDoc

/-- `get_agent_connection_from_vault` (vault.py lines 344-380): read the
document, return the sanitized field when present. -/
def get_agent_connection_from_vault (name : String) (user_id : String)
    (is_common : Bool) (agent_id : Option String) (enabled : Bool) (st : VaultSt) :
    Option String × VaultSt :=
  if !enabled then (none, st)
  else
    let path := format_secret_key user_id agent_id is_common
    let r1 := getSecret st path
    match r1.1 with
    | some secret =>
      if !secret.isEmpty then (alistGet secret (sanitize_key_field name), r1.2)
      else (none, r1.2)
    | none => (none, r1.2)

/-- `delete_agent_connection_from_vault` (vault.py lines 383-428): read
the document; pop the sanitized field when present; if the mapping became
empty delete the whole path, otherwise write the reduced mapping back; an
absent path or field counts as success. -/
def delete_agent_connection_from_vault (name : String) (user_id : String)
    (is_common : Bool) (agent_id : Option String) (enabled : Bool) (st : VaultSt) :
    Bool × VaultSt :=
  if !enabled then (false, st)
  else
    let path := format_secret_key user_id agent_id is_common
    let r1 := getSecret st path
    match r1.1 with
    | some secret =>
      if !secret.isEmpty then
        let sanitized := sanitize_key_field name
        let secret2 := if docHas secret sanitized then alistRemove secret sanitized else secret
        if !secret2.isEmpty then
          let r2 := setSecret r1.2 path secret2
          ((if !r2.1 then true else r2.1), r2.2)
        else
          let r2 := deleteSecret r1.2 path
          ((if !r2.1 then true else r2.1), r2.2)
      else (true, r1.2)
    | none => (true, r1.2)

/-- The caller identity resolved by the auth dependency. -/
structure User where
  id : String
  role : String
deriving DecidableEq

/-- Request body of `POST /` (`AgentConnectionCreate`). -/
structure AgentConnectionCreate where
  key_name : String
  key_value : String
  agent_id : Option String := none
  is_common : Bool := false
deriving DecidableEq

/-- Request body of `PUT /{key_id}` (`AgentConnectionUpdate`); every field
optional. -/
structure AgentConnectionUpdate where
  key_name : Option String := none
  key_value : Option String := none
  agent_id : Option String := none
  is_common : Option Bool := none
deriving DecidableEq

/-- `AgentConnectionResponse` (the `created_at` wall-clock field is
omitted, see the header comment). -/
structure AgentConnectionResponse where
  key_id : String
  key_name : String
  agent_id : Option String := none
  is_common : Bool := false
  user_id : Option String := none
  user_name : Option String := none
  user_email : Option String := none
deriving DecidableEq

/-- Body of the `GET /{key_id}` success response. -/
structure GetConnectionResult where
  key_id : String
  key_name : String
  key_value : String
  agent_id : Option String
  is_common : Bool
deriving DecidableEq

/-- Outcome of a handler: a value, or an `HTTPException` with status code
and detail message. -/
inductive HResp (α : Type) where
  | ok (val : α)
  | error (status : Nat) (detail : String)
deriving DecidableEq

/-- Python `key_name.replace('_', '').isalnum()`: non-empty and all
alphanumeric after removing every underscore (`isalnum` of the empty
string is `False`).  The alphanumeric class here is ASCII, while Python's
`str.isalnum` also accepts non-ASCII Unicode alphanumerics, so this model
rejects some key names the program accepts; theorems about the gate's
rejections are accordingly stated only at ASCII characters, on which the
two classes coincide. -/
def pyIsAlnumNoUnderscore (key_name : String) : Bool :=
  let stripped := key_name.toList.filter (fun c => !(c = '_'))
  !stripped.isEmpty && stripped.all isAlnumChar

/-- The router binds the sanitizer imported from the vault module under
this name (`sanitize_agent_id`); it is `sanitize_agent_name`. -/
def sanitize_agent_id (a : Option String) : String :=
  sanitize_agent_name a

/-- The `key_id.split('_', 3)` parsing shared by the `GET`/`PUT`/`DELETE`
`/{key_id}` handlers (agent_connections.py lines 405-413, 460-467,
556-564): fewer than three parts is malformed; otherwise the first three
parts are (user_id, key_name, agent_scope) and any fourth remainder is
dropped. -/
def parseKeyId (key_id : String) : Option (String × String × String) :=
  match (pySplit '_' 3 key_id.toList).map List.asString with
  | p0 :: p1 :: p2 :: _ => some (p0, p1, p2)
  | _ => none

/-- `create_agent_connection` (`POST /`, agent_connections.py lines
47-99).  `vaultEnabled` is the configuration flag `VAULT_CONFIG.value`
(and equally the module-level `ENABLE_VAULT_INTEGRATION` consulted inside
the vault helpers). -/
def create_agent_connection (connection : AgentConnectionCreate) (user : User)
    (vaultEnabled : Bool) (st : VaultSt) :
    HResp AgentConnectionResponse × VaultSt :=
  if connection.key_name.isEmpty ∨ connection.key_value.isEmpty then
    (.error 400 "Key name and value are required", st)
  else if !(pyIsAlnumNoUnderscore connection.key_name) then
    (.error 400 "Key name must be alphanumeric with underscores only", st)
  else if connection.is_common ∧ user.role ≠ "admin" then
    (.error 403 "Only administrators can create common connections", st)
  else
    let safe_scope :=
      if pyTruthy connection.agent_id then sanitize_agent_id connection.agent_id
      else if connection.is_common then "common" else "default"
    let resp : AgentConnectionResponse :=
      { key_id := user.id ++ "_" ++ connection.key_name ++ "_" ++ safe_scope
        key_name := connection.key_name
        agent_id :=
          if connection.is_common ∨ !(pyTruthy connection.agent_id) then none
          else some (sanitize_agent_id connection.agent_id)
        is_common := connection.is_common }
    if vaultEnabled then
      let r := store_agent_connection_in_vault (some connection.key_name)
        (some connection.key_value) connection.agent_id connection.is_common
        user.id vaultEnabled st
      if r.1 then (.ok resp, r.2)
      else (.error 500 "Failed to store key in Vault", r.2)
    else (.ok resp, st)

/-- `list_agent_connections` (`GET /`, agent_connections.py lines
253-304): list the children of `users/{user.id}` and build one response
per child name that contains an underscore, splitting the child NAME as
`{agent_name}_{key_name}` with `split('_', 1)`; a listing failure yields
the empty list. -/
def list_agent_connections (user : User) (vaultEnabled : Bool) (st : VaultSt) :
    HResp (List AgentConnectionResponse) × VaultSt :=
  if vaultEnabled then
    let r := listSecrets st ("users/" ++ user.id)
    match r.1 with
    | none => (.ok [], r.2)
    | some keys =>
      let connections := keys.filterMap (fun key =>
        if '_' ∈ key.toList then
          match (pySplit '_' 1 key.toList).map List.asString with
          | [agent_scope, key_name] =>
            let is_common : Bool := agent_scope = "common"
            let agent_id : Option String :=
              if is_common ∨ agent_scope = "default" then none else some agent_scope
            let safe_scope :=
              if pyTruthy agent_id then sanitize_agent_id agent_id
              else if is_common then "common" else "default"
            some { key_id := user.id ++ "_" ++ key_name ++ "_" ++ safe_scope
                   key_name := key_name
                   agent_id :=
                     if is_common ∨ !(pyTruthy agent_id) then none
                     else some (sanitize_agent_id agent_id)
                   is_common := is_common }
          | _ => none
        else none)
      (.ok connections, r.2)
  else (.ok [], st)

/-- `get_agent_connection` (`GET /{key_id}`, agent_connections.py lines
398-449). -/
def get_agent_connection (key_id : String) (user : User) (vaultEnabled : Bool)
    (st : VaultSt) : HResp GetConnectionResult × VaultSt :=
  match parseKeyId key_id with
  | none => (.error 400 "Invalid key_id format", st)
  | some (user_id_from_key, key_name, agent_scope) =>
    if user_id_from_key ≠ user.id ∧ user.role ≠ "admin" then
      (.error 403 "Access denied", st)
    else
      let is_common : Bool := agent_scope = "common"
      let agent_id : Option String :=
        if is_common ∨ agent_scope = "default" then none else some agent_scope
      if vaultEnabled then
        let r := get_agent_connection_from_vault key_name user_id_from_key
          is_common agent_id vaultEnabled st
        match r.1 with
        | none => (.error 404 "Key not found", r.2)
        | some v =>
          (.ok { key_id := key_id
                 key_name := key_name
                 key_value := v
                 agent_id :=
                   if is_common ∨ !(pyTruthy agent_id) then none
                   else some (sanitize_agent_id agent_id)
                 is_common := is_common }, r.2)
      else (.error 503 "Vault integration not enabled", st)

/-- Lines 478-487 of the PUT handler: `current_value` is fetched from the
vault only when no new value was supplied and the vault is enabled. -/
def update_fetch_current (fetched : Bool) (current_key_name user_id_from_key : String)
    (is_common : Bool) (agent_id : Option String) (vaultEnabled : Bool) (st : VaultSt) :
    Option String × VaultSt :=
  if fetched then
    get_agent_connection_from_vault current_key_name user_id_from_key
      is_common agent_id vaultEnabled st
  else (none, st)

/-- `update_agent_connection` (`PUT /{key_id}`, agent_connections.py lines
452-547). -/
def update_agent_connection (key_id : String) (connection : AgentConnectionUpdate)
    (user : User) (vaultEnabled : Bool) (st : VaultSt) :
    HResp AgentConnectionResponse × VaultSt :=
  match parseKeyId key_id with
  | none => (.error 400 "Invalid key_id format", st)
  | some (user_id_from_key, current_key_name, agent_scope) =>
    if user_id_from_key ≠ user.id ∧ user.role ≠ "admin" then
      (.error 403 "Access denied", st)
    else
      let is_common : Bool := agent_scope = "common"
      let agent_id : Option String :=
        if is_common ∨ agent_scope = "default" then none else some agent_scope
      let fetched : Bool := !(pyTruthy connection.key_value) && vaultEnabled
      let rFetch := update_fetch_current fetched current_key_name user_id_from_key
        is_common agent_id vaultEnabled st
      if fetched ∧ rFetch.1 = none then (.error 404 "Key not found", rFetch.2)
      else
        let current_value := rFetch.1
        let new_key_name :=
          if pyTruthy connection.key_name then connection.key_name.getD ""
          else current_key_name
        let new_key_value : Option String :=
          if pyTruthy connection.key_value then connection.key_value
          else current_value
        let new_agent_id : Option String :=
          match connection.agent_id with
          | some a => some a
          | none => agent_id
        let new_is_common : Bool := connection.is_common.getD is_common
        if new_key_name ≠ current_key_name ∧ !(pyIsAlnumNoUnderscore new_key_name) then
          (.error 400 "Key name must be alphanumeric with underscores only", rFetch.2)
        else if new_is_common ∧ !is_common ∧ user.role ≠ "admin" then
          (.error 403 "Only administrators can create common connections", rFetch.2)
        else
          let stAfterDelete :=
            if (new_key_name ≠ current_key_name ∨ new_agent_id ≠ agent_id ∨
                new_is_common ≠ is_common) ∧ vaultEnabled then
              (delete_agent_connection_from_vault current_key_name user_id_from_key
                is_common agent_id vaultEnabled rFetch.2).2
            else rFetch.2
          let safe_new_scope :=
            if pyTruthy new_agent_id then sanitize_agent_id new_agent_id
            else if new_is_common then "common" else "default"
          let resp : AgentConnectionResponse :=
            { key_id := user_id_from_key ++ "_" ++ new_key_name ++ "_" ++ safe_new_scope
              key_name := new_key_name
              agent_id :=
                if new_is_common ∨ !(pyTruthy new_agent_id) then none
                else some (sanitize_agent_id new_agent_id)
              is_common := new_is_common }
          if vaultEnabled then
            let rStore := store_agent_connection_in_vault (some new_key_name)
              new_key_value new_agent_id new_is_common user_id_from_key
              vaultEnabled stAfterDelete
            if rStore.1 then (.ok resp, rStore.2)
            else (.error 500 "Failed to update key in Vault", rStore.2)
          else (.ok resp, stAfterDelete)

/-- `delete_agent_connection` (`DELETE /{key_id}`, agent_connections.py
lines 550-594). -/
def delete_agent_connection (key_id : String) (user : User) (vaultEnabled : Bool)
    (st : VaultSt) : HResp String × VaultSt :=
  match parseKeyId key_id with
  | none => (.error 400 "Invalid key_id format", st)
  | some (user_id_from_key, key_name, agent_scope) =>
    if user_id_from_key ≠ user.id ∧ user.role ≠ "admin" then
      (.error 403 "Access denied", st)
    else
      let is_common : Bool := agent_scope = "common"
      let agent_id : Option String :=
        if is_common ∨ agent_scope = "default" then none else some agent_scope
      if vaultEnabled then
        let r := delete_agent_connection_from_vault key_name user_id_from_key
          is_common agent_id vaultEnabled st
        if r.1 then (.ok "success", r.2)
        else (.error 500 "Failed to delete key from Vault", r.2)
      else (.ok "success", st)

theorem pySplitAux_length (sep : Char) :
    ∀ (l : List Char) (m : Nat) (acc : List Char),
      (pySplitAux sep m acc l).length = min (m + 1) (countChar sep l + 1) := by
  intro l
  induction l with
  | nil => intro m acc; simp [pySplitAux, countChar]
  | cons c cs ih =>
    intro m acc
    cases m with
    | zero =>
      simp only [pySplitAux]
      rw [ih 0 (c :: acc)]
      simp only [countChar]
      omega
    | succ m' =>
      by_cases h : c = sep
      · subst h
        simp only [pySplitAux, List.length_cons, countChar, eq_self_iff_true, if_true]
        rw [ih m' []]
        omega
      · simp only [pySplitAux, if_neg h]
        rw [ih (Nat.succ m') (c :: acc)]
        simp only [countChar, if_neg h]
        omega

theorem parseKeyId_eq_none_iff (key_id : String) :
    parseKeyId key_id = none ↔ countChar '_' key_id.toList < 2 := by
  set n := countChar '_' key_id.toList with hn
  have hlen2 : ((pySplit '_' 3 key_id.toList).map List.asString).length =
      min 4 (n + 1) := by
    rw [List.length_map, pySplit, pySplitAux_length]
  unfold parseKeyId
  rcases hp : (pySplit '_' 3 key_id.toList).map List.asString with _ | ⟨a, _ | ⟨b, _ | ⟨c, t⟩⟩⟩ <;>
      rw [hp] at hlen2 <;>
      simp only [List.length_nil, List.length_cons] at hlen2 <;>
      simp <;> omega

theorem subNonAlnumAux_eq_replaceRuns :
    ∀ l : List Char, subNonAlnumAux false l = replaceRuns l ∧
      subNonAlnumAux true l = replaceRuns (dropNonAlnum l) := by
  intro l
  induction l with
  | nil => constructor <;> simp [subNonAlnumAux, replaceRuns, dropNonAlnum]
  | cons c cs ih =>
    by_cases h : isAlnumChar c
    · constructor <;>
        simp [subNonAlnumAux, replaceRuns, dropNonAlnum, h, ih.1]
    · constructor <;>
        simp [subNonAlnumAux, replaceRuns, dropNonAlnum, h, ih.2]

theorem pySplitAux_headI_eq_takeUntil (sep : Char) :
    ∀ (l acc : List Char) (m : Nat),
      (pySplitAux sep (m + 1) acc l).headI = acc.reverse ++ takeUntilChar sep l := by
  intro l
  induction l with
  | nil => intro acc m; simp [pySplitAux, takeUntilChar]
  | cons c cs ih =>
    intro acc m
    by_cases h : c = sep
    · simp [pySplitAux, takeUntilChar, h]
    · simp only [pySplitAux, if_neg h, takeUntilChar]
      rw [ih (c :: acc) m]
      simp

theorem alistGet_alistSet_self {α : Type} (l : List (String × α)) (k : String) (v : α) :
    alistGet (alistSet l k v) k = some v := by
  induction l with
  | nil => simp [alistGet, alistSet]
  | cons p rest ih =>
    obtain ⟨pk, pv⟩ := p
    by_cases h : pk = k
    · simp [alistSet, alistGet, h]
    · simpa [alistSet, alistGet, h] using ih

theorem alistGet_alistSet_ne {α : Type} (l : List (String × α)) (k f : String) (v : α)
    (hne : f ≠ k) : alistGet (alistSet l k v) f = alistGet l f := by
  have hkf : ¬ k = f := fun hcontra => hne hcontra.symm
  induction l with
  | nil => simp [alistGet, alistSet, hkf]
  | cons p rest ih =>
    obtain ⟨pk, pv⟩ := p
    by_cases h : pk = k
    · subst h
      simp [alistSet, alistGet, hkf]
    · by_cases h2 : pk = f
      · simp [alistSet, alistGet, h, h2, hne]
      · simp [alistSet, alistGet, h, h2, ih]

theorem alistSet_eq_of_get {α : Type} :
    ∀ (l : List (String × α)) (k : String) (v : α),
      alistGet l k = some v → alistSet l k v = l := by
  intro l
  induction l with
  | nil => intro k v h; simp [alistGet] at h
  | cons p rest ih =>
    intro k v h
    obtain ⟨pk, pv⟩ := p
    by_cases hp : pk = k
    · simp only [alistGet, if_pos hp] at h
      cases h
      simp [alistSet, hp]
    · simp only [alistGet, if_neg hp] at h
      simp [alistSet, hp, ih k v h]

theorem alistGet_alistRemove_self {α : Type} (l : List (String × α)) (k : String) :
    alistGet (alistRemove l k) k = none := by
  induction l with
  | nil => simp [alistRemove, alistGet]
  | cons p rest ih =>
    obtain ⟨pk, pv⟩ := p
    by_cases h : pk = k
    · simpa [alistRemove, List.filter_cons, h] using ih
    · simpa [alistRemove, List.filter_cons, alistGet, h] using ih

theorem alistGet_alistRemove_ne {α : Type} (l : List (String × α)) (k f : String)
    (hne : f ≠ k) : alistGet (alistRemove l k) f = alistGet l f := by
  have hkf : ¬ k = f := fun hcontra => hne hcontra.symm
  induction l with
  | nil => simp [alistRemove, alistGet]
  | cons p rest ih =>
    obtain ⟨pk, pv⟩ := p
    by_cases h : pk = k
    · have hpf : ¬ pk = f := by
        rw [h]
        exact hkf
      simpa [alistRemove, List.filter_cons, alistGet, h, hpf, hkf] using ih
    · by_cases h2 : pk = f
      · simp [alistRemove, List.filter_cons, alistGet, h, h2, hne]
      · simpa [alistRemove, List.filter_cons, alistGet, h, h2] using ih

theorem alistRemove_eq_of_not_has {α : Type} :
    ∀ (l : List (String × α)) (k : String),
      alistGet l k = none → alistRemove l k = l := by
  intro l
  induction l with
  | nil => intro k _; simp [alistRemove]
  | cons p rest ih =>
    intro k h
    obtain ⟨pk, pv⟩ := p
    by_cases hp : pk = k
    · simp [alistGet, hp] at h
    · simp only [alistGet, if_neg hp] at h
      simp [alistRemove, List.filter_cons, hp] at ih ⊢
      exact ih k h

/-- Transcription of the spec's `normalize_scope_token` contract (spec
section 4.1), for comparison with the source's `sanitize_agent_name`:
empty/absent yields "default"; truncate before the first colon; replace
every maximal run of non-alphanumerics by a single underscore; trim
leading/trailing underscores; "default" when the result is empty. -/
def normalize_scope_token (identifier : Option String) : String :=
  match identifier with
  | none => "default"
  | some s =>
    if s.isEmpty then "default"
    else
      let truncated :=
        if ':' ∈ s.toList then takeUntilChar ':' s.toList else s.toList
      let collapsed := replaceRuns truncated
      let trimmed := pyStrip '_' collapsed
      if trimmed.isEmpty then "default" else trimmed.asString

/-- C6: `normalize_scope_token`, implemented as `sanitize_agent_name`, is
a pure total function that maps empty/absent identifiers to "default",
truncates at the first colon, replaces every maximal non-alphanumeric run
by one underscore, trims leading/trailing underscores, and falls back to
"default" for an empty result — proved by showing the source function
pointwise equal to the independent transcription of the spec's rule. -/
theorem c6_sanitize_agent_name_meets_spec (x : Option String) :
    sanitize_agent_name x = normalize_scope_token x := by
  cases x with
  | none => rfl
  | some s =>
    unfold sanitize_agent_name normalize_scope_token
    have hhead : (pySplit ':' 1 s.data).headI = takeUntilChar ':' s.data := by
      have h := pySplitAux_headI_eq_takeUntil ':' s.data [] 0
      simpa [pySplit] using h
    have hsub : ∀ l : List Char, subNonAlnum l = replaceRuns l :=
      fun l => (subNonAlnumAux_eq_replaceRuns l).1
    by_cases he : s.isEmpty
    · simp [he]
    · by_cases hc : ':' ∈ s.data
      · simp [String.toList, he, hc, hhead, hsub]
      · simp [String.toList, he, hc, hsub]

/-- C1: the round-trip `parse(format(u, k, s)) = (u, sanitized(k), s)`
fails on the code as soon as `key_name` contains an underscore: the
create handler for user "u1", key_name "api_key" and default scope
returns composite id "u1_api_key_default", the `/{key_id}` parse
decomposes that id into ("u1", "api", "key") instead of
("u1", "api_key", "default"), and a GET with the freshly returned id
therefore answers 404 even though the value was just stored. -/
theorem c1_roundtrip_fails_on_underscored_key_name :
    (create_agent_connection ⟨"api_key", "secret1", none, false⟩ ⟨"u1", "user"⟩ true
        ⟨[], []⟩).1 =
      HResp.ok { key_id := "u1_api_key_default", key_name := "api_key",
                 agent_id := none, is_common := false } ∧
    (create_agent_connection ⟨"api_key", "secret1", none, false⟩ ⟨"u1", "user"⟩ true
        ⟨[], []⟩).2.store = [("users/u1/default", [("api_key", "secret1")])] ∧
    parseKeyId "u1_api_key_default" = some ("u1", "api", "key") ∧
    ("u1", "api", "key") ≠ ("u1", "api_key", "default") ∧
    (get_agent_connection "u1_api_key_default" ⟨"u1", "user"⟩ true
        (create_agent_connection ⟨"api_key", "secret1", none, false⟩ ⟨"u1", "user"⟩ true
          ⟨[], []⟩).2).1 =
      HResp.error 404 "Key not found" := by
  decide

/-- C2: the List operation does not enumerate the fields of the scope
documents: for a user whose store holds the scope document
`users/user123/default` with field "apikey", listing returns the empty
list (the document name "default" has no underscore and is skipped), and
for a scope document named `users/user123/webshop_email` it returns a
single entry obtained by misparsing the DOCUMENT NAME as
`{agent}_{key}`, never reading the field "apikey" inside. -/
theorem c2_list_ignores_document_fields :
    alistGet ([("users/user123/default", [("apikey", "v1")])] :
        List (String × Doc)) "users/user123/default" = some [("apikey", "v1")] ∧
    (list_agent_connections ⟨"user123", "user"⟩ true
        ⟨[("users/user123/default", [("apikey", "v1")])], []⟩).1 = HResp.ok [] ∧
    (list_agent_connections ⟨"user123", "user"⟩ true
        ⟨[("users/user123/webshop_email", [("apikey", "v1")])], []⟩).1 =
      HResp.ok [{ key_id := "user123_email_webshop", key_name := "email",
                  agent_id := some "webshop", is_common := false }] := by
  decide

/-- C3 counterexample: the composite id "a__b" has two underscores and an
EMPTY computed key_name, so per the claim it must fail with 400; the code
accepts it, decomposing it into ("a", "", "b"), and the DELETE handler
answers success rather than 400.  Moreover "u_a_b_c" is decomposed into
("u", "a", "b") — the segment after the third underscore is dropped — not
into ("u", "a_b", "c") as the first/last-separator rule would give. -/
theorem c3_empty_key_name_accepted :
    parseKeyId "a__b" = some ("a", "", "b") ∧
    (delete_agent_connection "a__b" ⟨"a", "user"⟩ true ⟨[], []⟩).1 = HResp.ok "success" ∧
    parseKeyId "u_a_b_c" = some ("u", "a", "b") := by
  decide

/-- C5: on each of the GET/PUT/DELETE `/{key_id}` handlers, when the
parsed composite id carries an owner different from the caller and the
caller is not an admin, the handler answers 403 "Access denied" with the
backend state (store and operation trace) untouched — no backend access
happens before the refusal. -/
theorem c5_foreign_owner_forbidden :
    (∀ (key_id : String) (user : User) (ven : Bool) (st : VaultSt)
        (uid kname scope : String),
      parseKeyId key_id = some (uid, kname, scope) →
      uid ≠ user.id →
      user.role ≠ "admin" →
      get_agent_connection key_id user ven st = (HResp.error 403 "Access denied", st)) ∧
    (∀ (key_id : String) (connection : AgentConnectionUpdate) (user : User) (ven : Bool)
        (st : VaultSt) (uid kname scope : String),
      parseKeyId key_id = some (uid, kname, scope) →
      uid ≠ user.id →
      user.role ≠ "admin" →
      update_agent_connection key_id connection user ven st =
        (HResp.error 403 "Access denied", st)) ∧
    (∀ (key_id : String) (user : User) (ven : Bool) (st : VaultSt)
        (uid kname scope : String),
      parseKeyId key_id = some (uid, kname, scope) →
      uid ≠ user.id →
      user.role ≠ "admin" →
      delete_agent_connection key_id user ven st = (HResp.error 403 "Access denied", st)) := by
  refine ⟨?_, ?_, ?_⟩
  · intro key_id user ven st uid kname scope hp hne hrole
    simp [get_agent_connection, hp, hne, hrole]
  · intro key_id connection user ven st uid kname scope hp hne hrole
    simp [update_agent_connection, hp, hne, hrole]
  · intro key_id user ven st uid kname scope hp hne hrole
    simp [delete_agent_connection, hp, hne, hrole]

/-- C4: creating with `is_common = true` as a non-admin is refused with
403 (for any request passing the preceding key-name/value validations),
and an update that would newly turn a non-Common scope into Common is
likewise refused with 403 for a non-admin owner; the backend state is
untouched in both cases. -/
theorem c4_common_requires_admin :
    (∀ (connection : AgentConnectionCreate) (user : User) (ven : Bool) (st : VaultSt),
      connection.key_name.isEmpty = false →
      connection.key_value.isEmpty = false →
      pyIsAlnumNoUnderscore connection.key_name = true →
      connection.is_common = true →
      user.role ≠ "admin" →
      create_agent_connection connection user ven st =
        (HResp.error 403 "Only administrators can create common connections", st)) ∧
    (∀ (key_id : String) (connection : AgentConnectionUpdate) (user : User) (ven : Bool)
        (st : VaultSt) (kname scope : String),
      parseKeyId key_id = some (user.id, kname, scope) →
      scope ≠ "common" →
      pyTruthy connection.key_value = true →
      connection.key_name = none →
      connection.is_common = some true →
      user.role ≠ "admin" →
      update_agent_connection key_id connection user ven st =
        (HResp.error 403 "Only administrators can create common connections", st)) := by
  constructor
  · intro connection user ven st h1 h2 h3 h4 h5
    simp [create_agent_connection, h1, h2, h3, h4, h5]
  · intro key_id connection user ven st kname scope hp hscope hval hname hic hrole
    have hpt : pyTruthy none = false := rfl
    simp [update_agent_connection, update_fetch_current, hp, hscope, hval, hname, hic,
      hrole, hpt]

/-- C9: `store_agent_connection_in_vault` is a read-modify-write on the
scope document: it succeeds, the document at the resolved path afterwards
is exactly the old document (absence read as the empty mapping) with the
sanitized field set to the new value, that field now reads the new value,
and every other field keeps its previous value. -/
theorem c9_store_preserves_other_fields :
    ∀ (name value user_id : String) (agent_id : Option String) (is_common : Bool)
      (st : VaultSt),
      name.isEmpty = false →
      (store_agent_connection_in_vault (some name) (some value) agent_id is_common
          user_id true st).1 = true ∧
      alistGet (store_agent_connection_in_vault (some name) (some value) agent_id is_common
            user_id true st).2.store (format_secret_key user_id agent_id is_common) =
        some (alistSet ((alistGet st.store (format_secret_key user_id agent_id is_common)).getD [])
          (sanitize_key_field name) value) ∧
      alistGet (alistSet ((alistGet st.store (format_secret_key user_id agent_id is_common)).getD [])
          (sanitize_key_field name) value) (sanitize_key_field name) = some value ∧
      ∀ f, f ≠ sanitize_key_field name →
        alistGet (alistSet ((alistGet st.store (format_secret_key user_id agent_id is_common)).getD [])
            (sanitize_key_field name) value) f =
          alistGet ((alistGet st.store (format_secret_key user_id agent_id is_common)).getD []) f := by
  intro name value user_id agent_id is_common st hname
  have hpt : pyTruthy (some name) = true := by simp [pyTruthy, hname]
  refine ⟨?_, ?_, ?_, ?_⟩
  · simp [store_agent_connection_in_vault, hpt, getSecret, setSecret]
  · simp [store_agent_connection_in_vault, hpt, getSecret, setSecret,
      alistGet_alistSet_self]
  · exact alistGet_alistSet_self _ _ _
  · intro f hf
    exact alistGet_alistSet_ne _ _ _ _ hf

/-- C7: `delete_agent_connection_from_vault` on an existing non-empty
scope document: removing the last remaining field deletes the whole
document (a later read of that path finds nothing), while removing one
field of a document with several fields writes back exactly the remaining
fields with their values unchanged. -/
theorem c7_delete_field_document_lifecycle :
    ∀ (name user_id : String) (agent_id : Option String) (is_common : Bool)
      (st : VaultSt) (d : Doc),
      alistGet st.store (format_secret_key user_id agent_id is_common) = some d →
      d ≠ [] →
      (alistRemove d (sanitize_key_field name) = [] →
        alistGet (delete_agent_connection_from_vault name user_id is_common agent_id
            true st).2.store (format_secret_key user_id agent_id is_common) = none) ∧
      (alistRemove d (sanitize_key_field name) ≠ [] →
        alistGet (delete_agent_connection_from_vault name user_id is_common agent_id
            true st).2.store (format_secret_key user_id agent_id is_common) =
          some (alistRemove d (sanitize_key_field name)) ∧
        ∀ f, f ≠ sanitize_key_field name →
          alistGet (alistRemove d (sanitize_key_field name)) f = alistGet d f) := by
  intro name user_id agent_id is_common st d hd hdne
  have hie : d.isEmpty = false := by
    cases d with
    | nil => exact absurd rfl hdne
    | cons p ds => rfl
  by_cases hHas : docHas d (sanitize_key_field name) = true
  · rcases hs2 : alistRemove d (sanitize_key_field name) with _ | ⟨q, qs⟩
    · constructor
      · intro _
        simp [delete_agent_connection_from_vault, getSecret, deleteSecret, setSecret,
          hd, hie, hHas, hs2, alistGet_alistRemove_self]
      · intro hcontra
        exact absurd rfl hcontra
    · constructor
      · intro hcontra
        exact List.noConfusion hcontra
      · intro _
        constructor
        · simp [delete_agent_connection_from_vault, getSecret, deleteSecret, setSecret,
            hd, hie, hHas, hs2, alistGet_alistSet_self]
        · intro f hf
          rw [← hs2]
          exact alistGet_alistRemove_ne _ _ _ hf
  · have hget : alistGet d (sanitize_key_field name) = none := by
      unfold docHas at hHas
      cases hg : alistGet d (sanitize_key_field name) with
      | none => rfl
      | some v => rw [hg] at hHas; exact absurd rfl hHas
    have hrem : alistRemove d (sanitize_key_field name) = d :=
      alistRemove_eq_of_not_has d (sanitize_key_field name) hget
    constructor
    · intro hcontra
      rw [hrem] at hcontra
      exact absurd hcontra hdne
    · intro _
      constructor
      · rw [hrem]
        simp [delete_agent_connection_from_vault, getSecret, setSecret,
          hd, hie, hHas, alistGet_alistSet_self]
      · intro f hf
        rw [hrem]

/-- C8: for a composite id that parses and passes the ownership check,
DELETE on a nonexistent key — the scope document is absent, or the field
is absent from it — answers success, and the store contents are
unchanged (idempotent delete). -/
theorem c8_delete_nonexistent_is_success :
    ∀ (key_id : String) (user : User) (st : VaultSt) (kname scope : String),
      parseKeyId key_id = some (user.id, kname, scope) →
      (alistGet st.store (format_secret_key user.id
          (if scope = "common" ∨ scope = "default" then none else some scope)
          (decide (scope = "common"))) = none ∨
        ∃ d, alistGet st.store (format_secret_key user.id
            (if scope = "common" ∨ scope = "default" then none else some scope)
            (decide (scope = "common"))) = some d ∧
          alistGet d (sanitize_key_field kname) = none) →
      (delete_agent_connection key_id user true st).1 = HResp.ok "success" ∧
      (delete_agent_connection key_id user true st).2.store = st.store := by
  intro key_id user st kname scope hp habsent
  rcases habsent with habs | ⟨d, hdoc, hfield⟩
  · constructor <;>
      simp [delete_agent_connection, hp, delete_agent_connection_from_vault,
        getSecret, habs]
  · have hHas : docHas d (sanitize_key_field kname) = false := by
      unfold docHas
      rw [hfield]
      rfl
    cases d with
    | nil =>
      constructor <;>
        simp [delete_agent_connection, hp, delete_agent_connection_from_vault,
          getSecret, hdoc]
    | cons p ds =>
      have hset : alistSet st.store (format_secret_key user.id
          (if scope = "common" ∨ scope = "default" then none else some scope)
          (decide (scope = "common"))) (p :: ds) = st.store :=
        alistSet_eq_of_get _ _ _ hdoc
      constructor <;>
        simp [delete_agent_connection, hp, delete_agent_connection_from_vault,
          getSecret, setSecret, hdoc, hHas, hset]

theorem pyIsAlnum_false_of_badchar (s : String) (c : Char) (hc : c ∈ s.toList)
    (hna : isAlnumChar c = false) (hnu : c ≠ '_') :
    pyIsAlnumNoUnderscore s = false := by
  unfold pyIsAlnumNoUnderscore
  have hmem : c ∈ s.toList.filter (fun x => !(x = '_')) := by
    rw [List.mem_filter]
    exact ⟨hc, by simp [hnu]⟩
  have hall : (s.toList.filter (fun x => !(x = '_'))).all isAlnumChar = false := by
    rw [List.all_eq_false]
    exact ⟨c, hmem, by simp [hna]⟩
  simp only [pyIsAlnumNoUnderscore]
  rw [hall, Bool.and_false]

/-- C10: the create handler answers 400 for every key_name containing an
ASCII character that is neither alphanumeric nor an underscore (slashes,
backslashes, dots, spaces, hyphens, ...), with the backend untouched, and
the update handler applies the same restriction to a changed key_name —
stated for ASCII characters, where the modelled gate coincides with
Python's Unicode-aware `str.isalnum`; and `sanitize_key_field` is the
identity on every key_name free of slashes and backslashes, which covers
every key_name either gate accepts (Unicode alphanumerics included), so
its slash/backslash replacement can never fire through these
endpoints. -/
theorem c10_charset_gate_makes_sanitizer_moot :
    (∀ (connection : AgentConnectionCreate) (user : User) (ven : Bool) (st : VaultSt)
        (c : Char),
      c ∈ connection.key_name.toList →
      c.toNat < 128 →
      isAlnumChar c = false →
      c ≠ '_' →
      ∃ detail, create_agent_connection connection user ven st =
        (HResp.error 400 detail, st)) ∧
    (∀ (key_id : String) (connection : AgentConnectionUpdate) (user : User) (ven : Bool)
        (st : VaultSt) (kname scope nk : String) (c : Char),
      parseKeyId key_id = some (user.id, kname, scope) →
      connection.key_name = some nk →
      nk.isEmpty = false →
      nk ≠ kname →
      pyTruthy connection.key_value = true →
      c ∈ nk.toList →
      c.toNat < 128 →
      isAlnumChar c = false →
      c ≠ '_' →
      update_agent_connection key_id connection user ven st =
        (HResp.error 400 "Key name must be alphanumeric with underscores only", st)) ∧
    (∀ key_name : String,
      (∀ c ∈ key_name.toList, ¬(c = '/' ∨ c = '\\')) →
      sanitize_key_field key_name = key_name) := by
  refine ⟨?_, ?_, ?_⟩
  · intro connection user ven st c hc hascii hna hnu
    have hbad := pyIsAlnum_false_of_badchar connection.key_name c hc hna hnu
    by_cases h1 : connection.key_name.isEmpty = true ∨ connection.key_value.isEmpty = true
    · exact ⟨"Key name and value are required", by simp [create_agent_connection, h1]⟩
    · refine ⟨"Key name must be alphanumeric with underscores only", ?_⟩
      simp [create_agent_connection, h1, hbad]
  · intro key_id connection user ven st kname scope nk c hp hname hnk hne hval hc hascii hna hnu
    have hbad := pyIsAlnum_false_of_badchar nk c hc hna hnu
    have hpt : pyTruthy (some nk) = true := by simp [pyTruthy, hnk]
    simp [update_agent_connection, update_fetch_current, hp, hname, hval, hpt, hne, hbad]
  · intro key_name hall
    have hmap : ∀ l : List Char, (∀ c ∈ l, ¬(c = '/' ∨ c = '\\')) →
        l.map (fun ch => if ch = '/' ∨ ch = '\\' then '_' else ch) = l := by
      intro l
      induction l with
      | nil => intro _; rfl
      | cons a as ih =>
        intro h
        have ha := h a (List.mem_cons_self a as)
        simp [ha, ih (fun ch hch => h ch (List.mem_cons_of_mem a hch))]
    unfold sanitize_key_field
    rw [hmap key_name.toList hall]
    rfl

theorem fst_ite_ne {b g : Type} (c : Prop) [Decidable c] (x y : b × g) (z : b)
    (hx : x.1 ≠ z) (hy : y.1 ≠ z) : (if c then x else y).1 ≠ z := by
  by_cases h : c
  · rw [if_pos h]; exact hx
  · rw [if_neg h]; exact hy

set_option maxHeartbeats 1600000 in
/-- C3 (amended): the GET/PUT/DELETE `/{key_id}` handlers fail with 400
"Invalid key_id format" exactly when the id contains fewer than two
underscores (`split('_', 3)` yields fewer than three parts); any other id
is accepted — the computed key_name (second segment) may be empty, and
whatever follows the third underscore is ignored. -/
theorem c3_amended_malformed_iff_too_few_underscores :
    ∀ (key_id : String) (user : User) (ven : Bool) (st : VaultSt),
      ((get_agent_connection key_id user ven st).1 =
          HResp.error 400 "Invalid key_id format" ↔
        countChar '_' key_id.toList < 2) ∧
      ((delete_agent_connection key_id user ven st).1 =
          HResp.error 400 "Invalid key_id format" ↔
        countChar '_' key_id.toList < 2) ∧
      ∀ connection : AgentConnectionUpdate,
        (update_agent_connection key_id connection user ven st).1 =
            HResp.error 400 "Invalid key_id format" ↔
          countChar '_' key_id.toList < 2 := by
  intro key_id user ven st
  have hiff := parseKeyId_eq_none_iff key_id
  rcases hp : parseKeyId key_id with _ | ⟨uid, kname, scope⟩
  · rw [hp] at hiff
    have hcount : countChar '_' key_id.toList < 2 := hiff.mp rfl
    refine ⟨?_, ?_, ?_⟩
    · simp only [get_agent_connection, hp]
      simpa using hcount
    · simp only [delete_agent_connection, hp]
      simpa using hcount
    · intro connection
      simp only [update_agent_connection, hp]
      simpa using hcount
  · have hcount : ¬ countChar '_' key_id.toList < 2 := by
      intro hcl
      have h2 := hiff.mpr hcl
      rw [hp] at h2
      cases h2
    refine ⟨?_, ?_, ?_⟩
    · refine iff_of_false ?_ hcount
      simp only [get_agent_connection, hp]
      intro h
      repeat' split at h
      all_goals simp_all
    · refine iff_of_false ?_ hcount
      simp only [delete_agent_connection, hp]
      intro h
      repeat' split at h
      all_goals simp_all
    · intro connection
      refine iff_of_false ?_ hcount
      unfold update_agent_connection
      rw [hp]
      dsimp only
      repeat'
        first
        | apply fst_ite_ne
        | (intro hcontra; exact HResp.noConfusion hcontra)
        | (intro hcontra; injection hcontra with h1 h2; omega)
        | (intro hcontra; injection hcontra with h1 h2; exact absurd h2 (by decide))

theorem c4_common_requires_admin_witness :
    create_agent_connection ⟨"apikey", "v", none, true⟩ ⟨"u1", "user"⟩ true ⟨[], []⟩ =
      (HResp.error 403 "Only administrators can create common connections", ⟨[], []⟩) ∧
    update_agent_connection "u1_k_default" ⟨none, some "v2", none, some true⟩
        ⟨"u1", "user"⟩ true ⟨[], []⟩ =
      (HResp.error 403 "Only administrators can create common connections", ⟨[], []⟩) :=
  ⟨c4_common_requires_admin.1 ⟨"apikey", "v", none, true⟩ ⟨"u1", "user"⟩ true ⟨[], []⟩
      (by decide) (by decide) (by decide) rfl (by decide),
   c4_common_requires_admin.2 "u1_k_default" ⟨none, some "v2", none, some true⟩
      ⟨"u1", "user"⟩ true ⟨[], []⟩ "k" "default"
      (by decide) (by decide) (by decide) rfl rfl (by decide)⟩

theorem c5_foreign_owner_forbidden_witness :
    get_agent_connection "alice_k_default" ⟨"bob", "user"⟩ true ⟨[], []⟩ =
      (HResp.error 403 "Access denied", ⟨[], []⟩) ∧
    update_agent_connection "alice_k_default" ⟨none, none, none, none⟩
        ⟨"bob", "user"⟩ true ⟨[], []⟩ =
      (HResp.error 403 "Access denied", ⟨[], []⟩) ∧
    delete_agent_connection "alice_k_default" ⟨"bob", "user"⟩ true ⟨[], []⟩ =
      (HResp.error 403 "Access denied", ⟨[], []⟩) :=
  ⟨c5_foreign_owner_forbidden.1 "alice_k_default" ⟨"bob", "user"⟩ true ⟨[], []⟩
      "alice" "k" "default" (by decide) (by decide) (by decide),
   c5_foreign_owner_forbidden.2.1 "alice_k_default" ⟨none, none, none, none⟩
      ⟨"bob", "user"⟩ true ⟨[], []⟩ "alice" "k" "default"
      (by decide) (by decide) (by decide),
   c5_foreign_owner_forbidden.2.2 "alice_k_default" ⟨"bob", "user"⟩ true ⟨[], []⟩
      "alice" "k" "default" (by decide) (by decide) (by decide)⟩

theorem c7_delete_field_document_lifecycle_witness :
    alistGet (delete_agent_connection_from_vault "k" "u" false none true
        ⟨[("users/u/default", [("k", "v")])], []⟩).2.store "users/u/default" = none ∧
    alistGet (delete_agent_connection_from_vault "k" "u" false none true
        ⟨[("users/u/default", [("k", "v"), ("j", "w")])], []⟩).2.store "users/u/default" =
      some [("j", "w")] :=
  ⟨(c7_delete_field_document_lifecycle "k" "u" none false
      ⟨[("users/u/default", [("k", "v")])], []⟩ [("k", "v")]
      (by decide) (by decide)).1 (by decide),
   ((c7_delete_field_document_lifecycle "k" "u" none false
      ⟨[("users/u/default", [("k", "v"), ("j", "w")])], []⟩ [("k", "v"), ("j", "w")]
      (by decide) (by decide)).2 (by decide)).1⟩

theorem c8_delete_nonexistent_is_success_witness :
    (delete_agent_connection "u_k_default" ⟨"u", "user"⟩ true ⟨[], []⟩).1 =
      HResp.ok "success" ∧
    (delete_agent_connection "u_k_default" ⟨"u", "user"⟩ true ⟨[], []⟩).2.store = [] :=
  c8_delete_nonexistent_is_success "u_k_default" ⟨"u", "user"⟩ ⟨[], []⟩ "k" "default"
    (by decide) (Or.inl (by decide))

theorem c9_store_preserves_other_fields_witness :
    (store_agent_connection_in_vault (some "k") (some "v") none false "u" true
        ⟨[("users/u/default", [("j", "w")])], []⟩).1 = true ∧
    alistGet (store_agent_connection_in_vault (some "k") (some "v") none false "u" true
        ⟨[("users/u/default", [("j", "w")])], []⟩).2.store "users/u/default" =
      some [("j", "w"), ("k", "v")] ∧
    alistGet [("j", "w"), ("k", "v")] "k" = some "v" ∧
    alistGet [("j", "w"), ("k", "v")] "j" = some "w" := by
  have h := c9_store_preserves_other_fields "k" "v" "u" none false
    ⟨[("users/u/default", [("j", "w")])], []⟩ (by decide)
  exact ⟨h.1, h.2.1, h.2.2.1, (h.2.2.2 "j" (by decide)).trans (by decide)⟩

theorem c10_charset_gate_makes_sanitizer_moot_witness :
    (∃ detail, create_agent_connection ⟨"bad/name", "v", none, false⟩ ⟨"u", "user"⟩ true
        ⟨[], []⟩ = (HResp.error 400 detail, ⟨[], []⟩)) ∧
    update_agent_connection "u_k_default" ⟨some "bad-name", some "v", none, none⟩
        ⟨"u", "user"⟩ true ⟨[], []⟩ =
      (HResp.error 400 "Key name must be alphanumeric with underscores only", ⟨[], []⟩) ∧
    sanitize_key_field "api_key" = "api_key" :=
  ⟨c10_charset_gate_makes_sanitizer_moot.1 ⟨"bad/name", "v", none, false⟩ ⟨"u", "user"⟩
      true ⟨[], []⟩ '/' (by decide) (by decide) (by decide) (by decide),
   c10_charset_gate_makes_sanitizer_moot.2.1 "u_k_default"
      ⟨some "bad-name", some "v", none, none⟩ ⟨"u", "user"⟩ true ⟨[], []⟩
      "k" "default" "bad-name" '-'
      (by decide) rfl (by decide) (by decide) (by decide) (by decide) (by decide) (by decide)
      (by decide),
   c10_charset_gate_makes_sanitizer_moot.2.2 "api_key" (by decide)⟩
